import Mathlib

/-!
Verification development for the acceptance-criteria harness
(`tests/harness/criteria_loader.py` and `tests/harness/evaluator.py`).

Strings are modelled as `List Char` (`Str`), mirroring Python's per-character
string operations.  Python's `ast.parse` is external to the harness; its
outcome is passed to the evaluator as an explicit `ParseResult` value
(either a syntax error, or the list of import nodes an AST walk would find).
The scores computed by the harness are small integers (the float arithmetic
`100 - 20*e - 5*w + 5*c - 15*i` is exact on them), so `score` is an `Int`.
-/

namespace Harness

abbrev Str := List Char

/-- The apostrophe character, used by the marker `DON'T`. -/
def apos : Char := Char.ofNat 39

/-- Whitespace as recognised by Python's `str.strip`/`str.split` and the
regex class `\s` (for the ASCII range used throughout the harness). -/
def isPyWS (c : Char) : Bool :=
  c = ' ' || c = '\t' || c = '\n' || c = '\r' || c = Char.ofNat 11 || c = Char.ofNat 12

/-- Python `str.strip()`: remove leading and trailing whitespace. -/
def pyStrip (s : Str) : Str :=
  ((s.dropWhile isPyWS).reverse.dropWhile isPyWS).reverse

/-- Python `s.split(c)` for a single-character separator (keeps empty parts). -/
def splitOnChar (c : Char) : Str → List Str
  | [] => [[]]
  | d :: t =>
      if d = c then [] :: splitOnChar c t
      else
        match splitOnChar c t with
        | [] => [[d]]
        | h :: r => (d :: h) :: r

/-- Python `s.split()` with no argument: split on whitespace runs, drop empties. -/
def pySplitWS (s : Str) : List Str :=
  (s.foldr
    (fun c acc =>
      if isPyWS c then [] :: acc
      else
        match acc with
        | [] => [[c]]
        | w :: r => (c :: w) :: r)
    []).filter (fun w => !w.isEmpty)

/-- The whitespace normalisation `" ".join(line.split())` used by the evaluator. -/
def normalizeLine (s : Str) : Str :=
  List.intercalate [' '] (pySplitWS s)

/-- Python substring test `needle in hay` (empty needle is contained everywhere). -/
def containsSub (needle : Str) : Str → Bool
  | [] => needle.isEmpty
  | c :: t => List.isPrefixOf needle (c :: t) || containsSub needle t

/-- Python `hay.find(needle)` returning the first index, as an `Option`. -/
def pyFindNat (hay needle : Str) : Option Nat :=
  if List.isPrefixOf needle hay then some 0
  else
    match hay with
    | [] => none
    | _ :: t => Option.map (· + 1) (pyFindNat t needle)

/-- Auxiliary scan for `pyCount` (needle assumed non-empty; the fuel only
establishes totality and is never exhausted when it starts at the hay's
length). -/
def pyCountAux (needle : Str) : Nat → Str → Nat
  | 0, _ => 0
  | _, [] => 0
  | fuel + 1, c :: t =>
      if List.isPrefixOf needle (c :: t) then
        pyCountAux needle fuel (List.drop (needle.length - 1) t) + 1
      else pyCountAux needle fuel t

/-- Python `hay.count(needle)`: non-overlapping occurrences, scanned left to right. -/
def pyCount (hay needle : Str) : Nat :=
  if needle.isEmpty then hay.length + 1 else pyCountAux needle (hay.length + 1) hay

/-- Python `s.lower()` (ASCII case folding, which covers the harness inputs). -/
def pyLower (s : Str) : Str := s.map Char.toLower

/-- Python `s.split(sep, 1)[0]` and the remainder (`""` when no separator),
specialised to the newline separator used by the loader. -/
def splitFirstLine : Str → Str × Str
  | [] => ([], [])
  | c :: t =>
      if c = '\n' then ([], t)
      else
        let p := splitFirstLine t
        (c :: p.1, p.2)

/-! ### The flat-pattern regex model (`CodeEvaluator._code_to_regex`)

`_code_to_regex` escapes the snippet with `re.escape` and then applies two
`re.sub` calls and two `str.replace` calls.  On the Python version the
repository requires (3.10+, given its use of `X | None` annotations),
`re.escape` escapes exactly the characters in `()[]{}?*+-|^$\.&~#`,
whitespace included, and leaves quotes untouched; a newline is escaped as a
backslash followed by the newline character itself (not the letter `n`).
The regexes the pipeline can produce therefore consist of escaped literal
characters, `\s+`, `\s*` and the class `["\']`; they are modelled as token
lists and matched by a small backtracking matcher equivalent to `re.search`
on this fragment (the `DOTALL`/`MULTILINE` flags are irrelevant to it: the
produced patterns contain no `.` and no anchors). -/

/-- The characters escaped by `re.escape` since Python 3.7
(`()[]{}?*+-|^$\.&~#` together with whitespace). -/
def reSpecialChars : Str :=
  "()".data ++ [Char.ofNat 91, Char.ofNat 93, Char.ofNat 123, Char.ofNat 125] ++
    "?*+-|^$\\.&~# \t\n\r".data ++ [Char.ofNat 11, Char.ofNat 12]

/-- Model of `re.escape` (Python 3.7+ semantics). -/
def reEscape (s : Str) : Str :=
  s.foldr (fun c acc => if reSpecialChars.contains c then '\\' :: c :: acc else c :: acc) []

/-- Auxiliary scan for `subBackslashSpaces` (fuel for totality only). -/
def subBackslashSpacesAux : Nat → Str → Str
  | 0, s => s
  | _, [] => []
  | fuel + 1, '\\' :: ' ' :: rest =>
      '\\' :: 's' :: '+' :: subBackslashSpacesAux fuel (rest.dropWhile (· = ' '))
  | fuel + 1, c :: rest => c :: subBackslashSpacesAux fuel rest

/-- Model of `re.sub(r"\\ +", r"\\s+", p)`: a backslash followed by a greedy run of
spaces becomes `\s+` (left-to-right, non-overlapping). -/
def subBackslashSpaces (s : Str) : Str :=
  subBackslashSpacesAux (s.length + 1) s

/-- Model of `re.sub(r"\\n", r"\\s*", p)`: a backslash followed by the letter `n`
becomes `\s*`.  (An escaped newline is a backslash followed by the newline
character, which this pattern does not match.) -/
def subBackslashN : Str → Str
  | [] => []
  | '\\' :: 'n' :: rest => '\\' :: 's' :: '*' :: subBackslashN rest
  | c :: rest => c :: subBackslashN rest

/-- Auxiliary scan for `replaceSub` (fuel for totality only). -/
def replaceSubAux (target repl : Str) : Nat → Str → Str
  | 0, s => s
  | _, [] => []
  | fuel + 1, c :: t =>
      if target.isEmpty then c :: t
      else if List.isPrefixOf target (c :: t) then
        repl ++ replaceSubAux target repl fuel (List.drop (target.length - 1) t)
      else c :: replaceSubAux target repl fuel t

/-- Python `s.replace(target, repl)` (non-overlapping, left to right;
the empty-target case never arises in the pipeline). -/
def replaceSub (target repl s : Str) : Str :=
  replaceSubAux target repl (s.length + 1) s

/-- The double-quote character. -/
def dq : Char := Char.ofNat 34

/-- The replacement text `["\']` of the quote-flexibility replaces. -/
def quoteClassText : Str := ['[', dq, '\\', apos, ']']

/-- The full string pipeline of `_code_to_regex` before compilation. -/
def codeToRegex (code : Str) : Str :=
  let p := reEscape (pyStrip code)
  let p := subBackslashSpaces p
  let p := subBackslashN p
  let p := replaceSub ['\\', dq] quoteClassText p
  let p := replaceSub ['\\', apos] quoteClassText p
  p

/-- Tokens of the regex fragment `_code_to_regex` can emit. -/
inductive RegexTok where
  | lit (c : Char)
  | ws1
  | ws0
  | quoteCls
deriving Repr, DecidableEq, BEq

/-- Compile the produced regex text into tokens; `none` models a
`re.error` (anything outside the fragment the pipeline emits). -/
def tokenize : Str → Option (List RegexTok)
  | [] => some []
  | '\\' :: 's' :: '+' :: rest => Option.map (RegexTok.ws1 :: ·) (tokenize rest)
  | '\\' :: 's' :: '*' :: rest => Option.map (RegexTok.ws0 :: ·) (tokenize rest)
  | '\\' :: c :: rest => Option.map (RegexTok.lit c :: ·) (tokenize rest)
  | '\\' :: [] => none
  | '[' :: rest =>
      match rest with
      | c1 :: c2 :: c3 :: c4 :: rest2 =>
          if c1 = dq && c2 = '\\' && c3 = apos && c4 = ']' then
            Option.map (RegexTok.quoteCls :: ·) (tokenize rest2)
          else none
      | _ => none
  | c :: rest =>
      if c = '+' || c = '*' || c = '?' || c = '(' || c = ')' || c = ']' ||
         c = Char.ofNat 123 || c = Char.ofNat 125 || c = '|' || c = '^' ||
         c = '$' || c = '.' then none
      else Option.map (RegexTok.lit c :: ·) (tokenize rest)

/-- The compiled flat-pattern regex of `_code_to_regex` (`none` = dropped). -/
def codeToRegexCompiled (code : Str) : Option (List RegexTok) :=
  tokenize (codeToRegex code)

/-- Match a token list against a prefix of `s`, with backtracking for the
whitespace runs (fuel for totality only: every step shrinks the combined
size of the token list and the text). -/
def matchToksAux : Nat → List RegexTok → Str → Bool
  | 0, _, _ => false
  | _, [], _ => true
  | _ + 1, RegexTok.lit _ :: _, [] => false
  | fuel + 1, RegexTok.lit c :: ts, d :: rest => c = d && matchToksAux fuel ts rest
  | _ + 1, RegexTok.quoteCls :: _, [] => false
  | fuel + 1, RegexTok.quoteCls :: ts, d :: rest =>
      (d = dq || d = apos) && matchToksAux fuel ts rest
  | _ + 1, RegexTok.ws1 :: _, [] => false
  | fuel + 1, RegexTok.ws1 :: ts, d :: rest =>
      isPyWS d && matchToksAux fuel (RegexTok.ws0 :: ts) rest
  | fuel + 1, RegexTok.ws0 :: ts, [] => matchToksAux fuel ts []
  | fuel + 1, RegexTok.ws0 :: ts, d :: rest =>
      matchToksAux fuel ts (d :: rest) ||
      (isPyWS d && matchToksAux fuel (RegexTok.ws0 :: ts) rest)

def matchToks (ts : List RegexTok) (s : Str) : Bool :=
  matchToksAux (ts.length + s.length + 1) ts s

/-- Model of `regex.search(s)` as a Boolean: the tokens match at some position. -/
def regexSearch (ts : List RegexTok) : Str → Bool
  | [] => matchToks ts []
  | c :: t => matchToks ts (c :: t) || regexSearch ts t

/-! ### Criteria loader (`criteria_loader.py`) -/

/-- One example code block extracted from documentation (`CodePattern`). -/
structure CodePattern where
  code : Str
  language : Str
  description : Str
  isCorrect : Bool
  sectionName : Str
deriving Repr, DecidableEq

/-- The criteria for one documentation section (`ValidationRule`). -/
structure ValidationRule where
  name : Str
  description : Str
  correctPatterns : List CodePattern
  incorrectPatterns : List CodePattern
  requiredImports : List Str
  forbiddenImports : List Str
  requiredPatterns : List Str
  forbiddenPatterns : List Str
deriving Repr, DecidableEq

/-- The full parsed criteria for one skill (`AcceptanceCriteria`; the
provenance path attribute plays no part in evaluation and is omitted). -/
structure AcceptanceCriteria where
  skillName : Str
  rules : List ValidationRule
  correctPatterns : List CodePattern
  incorrectPatterns : List CodePattern
deriving Repr, DecidableEq

/-- The `language` property: derived from the skill-name suffix. -/
def languageOf (skillName : Str) : Str :=
  let n := pyLower skillName
  if List.isSuffixOf "-py".data n then "python".data
  else if List.isSuffixOf "-dotnet".data n then "csharp".data
  else if List.isSuffixOf "-ts".data n then "typescript".data
  else if List.isSuffixOf "-java".data n then "java".data
  else "python".data

/-- Model of `re.split(r'^## ', content, flags=re.MULTILINE)`: chunks between
occurrences of `## ` at a line start (first chunk is the preamble; fuel for
totality only). -/
def splitSectionsAux : Nat → Str → Bool → Str → List Str → List Str
  | 0, s, _, cur, chunks => ((s.reverse ++ cur).reverse :: chunks).reverse
  | _, [], _, cur, chunks => (cur.reverse :: chunks).reverse
  | fuel + 1, c :: t, atLineStart, cur, chunks =>
      if atLineStart && List.isPrefixOf "## ".data (c :: t) then
        splitSectionsAux fuel ((c :: t).drop 3) false [] (cur.reverse :: chunks)
      else
        splitSectionsAux fuel t (c = '\n') (c :: cur) chunks

def splitSections (content : Str) : List Str :=
  splitSectionsAux (content.length + 1) content true [] []

/-- The class `\w` of the block-fence regex (for the harness's ASCII language tags). -/
def isWordChar (c : Char) : Bool := c.isAlphanum || c = '_'

/-- Lazy scan to the next triple-backtick fence: returns the text before it
and the remainder after it. -/
def findCloseFence : Str → Option (Str × Str)
  | '`' :: '`' :: '`' :: rest => some ([], rest)
  | c :: t =>
      match findCloseFence t with
      | some p => some (c :: p.1, p.2)
      | none => none
  | [] => none

/-- One step of `re.findall(r'```(\w+)?\n(.*?)```', body, re.DOTALL)`:
at a fence, an optional word tag must be followed by a newline, and the lazy
body runs to the earliest closing fence; on failure the scan advances one
character, as the regex engine would. -/
def extractCodeBlocksAux : Nat → Str → List (Str × Str)
  | 0, _ => []
  | _, [] => []
  | fuel + 1, '`' :: '`' :: '`' :: rest =>
      let w := rest.takeWhile isWordChar
      match rest.dropWhile isWordChar with
      | '\n' :: after =>
          (match findCloseFence after with
           | some p => (w, p.1) :: extractCodeBlocksAux fuel p.2
           | none => extractCodeBlocksAux fuel ('`' :: '`' :: rest))
      | _ => extractCodeBlocksAux fuel ('`' :: '`' :: rest)
  | fuel + 1, _ :: t => extractCodeBlocksAux fuel t

def extractCodeBlocks (body : Str) : List (Str × Str) :=
  extractCodeBlocksAux (body.length + 1) body

/-- The marker `DON'T` checked by the block-level window test (no colon). -/
def donT : Str := "DON".data ++ apos :: "T".data

/-- The marker `DON'T:` of the section-level marker list. -/
def donTColon : Str := "DON".data ++ apos :: "T:".data

/-- The section-level correct markers `['✅', 'Correct', 'DO:', 'Good']`. -/
def correctMarkers : List Str :=
  ["✅".data, "Correct".data, "DO:".data, "Good".data]

/-- The section-level incorrect markers
`['❌', 'Incorrect', "DON'T:", 'Bad', 'Anti-pattern']`. -/
def incorrectMarkers : List Str :=
  ["❌".data, "Incorrect".data, donTColon, "Bad".data, "Anti-pattern".data]

/-- The count `sum(content.count(m) for m in correct_markers)`. -/
def correctCount (body : Str) : Nat :=
  pyCount body "✅".data + pyCount body "Correct".data +
    pyCount body "DO:".data + pyCount body "Good".data

/-- The count `sum(content.count(m) for m in incorrect_markers)`. -/
def incorrectCount (body : Str) : Nat :=
  pyCount body "❌".data + pyCount body "Incorrect".data +
    pyCount body donTColon + pyCount body "Bad".data +
    pyCount body "Anti-pattern".data

/-- Model of `_is_correct_section`: majority of marker counts, `none` on a tie. -/
def isCorrectSection (body : Str) : Option Bool :=
  if incorrectCount body < correctCount body then some true
  else if correctCount body < incorrectCount body then some false
  else none

/-- The search anchor `code[:50] if len(code) > 50 else code`. -/
def anchorOf (code : Str) : Str :=
  if 50 < code.length then code.take 50 else code

/-- The 200 characters preceding position `pos`:
`context[max(0, pos - 200):pos]`. -/
def windowOf (context : Str) (pos : Nat) : Str :=
  (context.take pos).drop (pos - 200)

/-- The incorrect markers the 200-character window is checked for:
`'❌'`, `'Incorrect'`, `"DON'T"`. -/
def hasIncorrectWindowMarker (w : Str) : Bool :=
  containsSub "❌".data w || containsSub "Incorrect".data w || containsSub donT w

/-- The correct markers the 200-character window is checked for:
`'✅'`, `'Correct'`. -/
def hasCorrectWindowMarker (w : Str) : Bool :=
  containsSub "✅".data w || containsSub "Correct".data w

/-- Model of `_determine_correctness`: block-level window override, falling back to
the section default and finally to `True`. -/
def determineCorrectness (code context : Str) (sectionDefault : Option Bool) : Bool :=
  match pyFindNat context (anchorOf code) with
  | none => sectionDefault.getD true
  | some pos =>
      if hasIncorrectWindowMarker (windowOf context pos) then false
      else if hasCorrectWindowMarker (windowOf context pos) then true
      else sectionDefault.getD true

/-- Model of `_extract_code_patterns`: all code blocks of all sections, classified. -/
def extractCodePatterns (content : Str) : List CodePattern :=
  List.flatten ((splitSections content).map fun sec =>
    if (pyStrip sec).isEmpty then []
    else
      let tb := splitFirstLine sec
      let sectionContent := tb.2
      let sectionDefault := isCorrectSection sectionContent
      (extractCodeBlocks sectionContent).map fun lb =>
        { code := pyStrip lb.2
          language := if lb.1.isEmpty then "python".data else lb.1
          description := []
          isCorrect := determineCorrectness lb.2 sectionContent sectionDefault
          sectionName := pyStrip tb.1 })

/-- Model of `_extract_description`: leading paragraph of a section body. -/
def extractDescriptionAux : List Str → List Str → List Str
  | acc, [] => acc.reverse
  | acc, l :: rest =>
      if List.isPrefixOf ['#'] l || List.isPrefixOf "```".data l then acc.reverse
      else if !(pyStrip l).isEmpty then extractDescriptionAux (pyStrip l :: acc) rest
      else if !acc.isEmpty then acc.reverse
      else extractDescriptionAux acc rest

def extractDescription (content : Str) : Str :=
  List.intercalate [' '] (extractDescriptionAux [] (splitOnChar '\n' content))

/-- The class `\w` extended with a dot (the module part of the required-import regex). -/
def isWordDot (c : Char) : Bool := isWordChar c || c = '.'

/-- The class `[\w,\s]` (the name-list part of the required-import regex). -/
def isWordCommaWS (c : Char) : Bool := isWordChar c || c = ',' || isPyWS c

/-- One attempted match of `from\s+([\w.]+)\s+import\s+([\w,\s]+)` at the
start of `s` (maximal-munch reading of the greedy groups), returning the
module, the name list and the remainder after the match. -/
def tryImportMatch (s : Str) : Option (Str × Str × Str) :=
  match (if List.isPrefixOf "from".data s then some (s.drop 4) else none) with
  | none => none
  | some s1 =>
      match s1 with
      | c1 :: t1 =>
          if !isPyWS c1 then none
          else
            let s2 := t1.dropWhile isPyWS
            let m := s2.takeWhile isWordDot
            if m.isEmpty then none
            else
              let s3 := s2.dropWhile isWordDot
              match s3 with
              | c3 :: t3 =>
                  if !isPyWS c3 then none
                  else
                    let s4 := t3.dropWhile isPyWS
                    if !List.isPrefixOf "import".data s4 then none
                    else
                      let s5 := s4.drop 6
                      match s5 with
                      | c5 :: t5 =>
                          if !isPyWS c5 then none
                          else
                            let s6 := t5.dropWhile isPyWS
                            let names := s6.takeWhile isWordCommaWS
                            if names.isEmpty then none
                            else some (m, names, s6.dropWhile isWordCommaWS)
                      | [] => none
              | [] => none
      | [] => none

/-- Model of `_extract_required_imports`: scan for the import regex, splitting the
captured name list on commas. -/
def extractRequiredImportsAux : Nat → Str → List Str
  | 0, _ => []
  | _, [] => []
  | fuel + 1, c :: t =>
      match tryImportMatch (c :: t) with
      | some r =>
          ((splitOnChar ',' r.2.1).map fun n =>
            "from ".data ++ r.1 ++ " import ".data ++ pyStrip n) ++
          extractRequiredImportsAux fuel r.2.2
      | none => extractRequiredImportsAux fuel t

def extractRequiredImports (content : Str) : List Str :=
  extractRequiredImportsAux (content.length + 1) content

/-- Model of `_extract_rules`: one rule per retained section. -/
def extractRules (content : Str) : List ValidationRule :=
  (splitSections content).filterMap fun sec =>
    if (pyStrip sec).isEmpty then none
    else
      let tb := splitFirstLine sec
      let title := pyStrip tb.1
      let body := tb.2
      if ["overview".data, "introduction".data, "quick reference".data].any
           (fun sk => containsSub sk (pyLower title)) then none
      else
        let pats := extractCodePatterns ("## ".data ++ sec)
        let cp := pats.filter (fun p => p.isCorrect)
        let ip := pats.filter (fun p => !p.isCorrect)
        if cp.isEmpty && ip.isEmpty then none
        else
          some { name := title
                 description := extractDescription body
                 correctPatterns := cp
                 incorrectPatterns := ip
                 requiredImports := extractRequiredImports body
                 forbiddenImports := []
                 requiredPatterns := []
                 forbiddenPatterns := [] }

/-- Model of `_parse_criteria`: assemble the flat pattern lists and the rules. -/
def parseCriteria (skillName content : Str) : AcceptanceCriteria :=
  let pats := extractCodePatterns content
  { skillName := skillName
    rules := extractRules content
    correctPatterns := pats.filter (fun p => p.isCorrect)
    incorrectPatterns := pats.filter (fun p => !p.isCorrect) }

/-! ### Evaluator (`evaluator.py`) -/

/-- Severity levels of evaluation findings. -/
inductive Severity where
  | error
  | warning
  | info
deriving Repr, DecidableEq, BEq

/-- A single finding from code evaluation. -/
structure Finding where
  severity : Severity
  rule : Str
  message : Str
  line : Option Nat := none
  column : Option Nat := none
  codeSnippet : Str := []
  suggestion : Str := []
deriving Repr, DecidableEq

/-- Result of evaluating code against criteria. -/
structure EvaluationResult where
  skillName : Str
  scenarioLabel : Str
  generatedCode : Str
  findings : List Finding
  matchedCorrect : List Str
  matchedIncorrect : List Str
  score : Int
deriving Repr, DecidableEq

/-- Property `EvaluationResult.passed`: no finding has `ERROR` severity. -/
def EvaluationResult.passed (r : EvaluationResult) : Bool :=
  !(r.findings.any fun f => f.severity == Severity.error)

/-- Property `EvaluationResult.error_count`. -/
def EvaluationResult.errorCount (r : EvaluationResult) : Nat :=
  r.findings.countP fun f => f.severity == Severity.error

/-- Property `EvaluationResult.warning_count`. -/
def EvaluationResult.warningCount (r : EvaluationResult) : Nat :=
  r.findings.countP fun f => f.severity == Severity.warning

/-- An import node found by walking the candidate code's AST
(`ast.ImportFrom` with a module, or a plain `ast.Import` alias). -/
inductive PyImport where
  | importFrom (module name : Str)
  | plain (name : Str)
deriving Repr, DecidableEq

def PyImport.isPlain : PyImport → Bool
  | PyImport.plain _ => true
  | _ => false

/-- The data carried by a Python `SyntaxError`. -/
structure PySyntaxError where
  msg : Str
  lineno : Option Nat
  offset : Option Nat
deriving Repr, DecidableEq

/-- The outcome of `ast.parse(code)`, which is external to the harness:
either a syntax error, or the import nodes an AST walk would enumerate. -/
inductive ParseResult where
  | ok (imports : List PyImport)
  | err (e : PySyntaxError)
deriving Repr, DecidableEq

/-- Insert into a set represented as a duplicate-free list. -/
def dedup (xs : List Str) : List Str :=
  xs.foldl (fun acc x => if acc.contains x then acc else acc ++ [x]) []

/-- The set built by `_check_imports`: only `ast.ImportFrom` nodes
contribute (`"from M import N"`); plain imports are skipped. -/
def actualImportsFrom (nodes : List PyImport) : List Str :=
  nodes.filterMap fun n =>
    match n with
    | PyImport.importFrom m a => some ("from ".data ++ m ++ " import ".data ++ a)
    | PyImport.plain _ => none

/-- A comment line (after stripping). -/
def isCommentLine (s : Str) : Bool := List.isPrefixOf ['#'] s

/-- The ERROR finding emitted by `_check_imports`. -/
def importFinding (line sectionName : Str) : Finding :=
  { severity := Severity.error
    rule := "imports".data
    message := "Incorrect import: ".data ++ line
    suggestion := "Check acceptance criteria section: ".data ++ sectionName }

/-- Model of `_check_imports` (python-only): flag pattern import lines that exactly
equal an entry of the candidate's from-import set. -/
def checkImports (lang : Str) (parse : ParseResult)
    (incorrectPats : List CodePattern) : List Finding :=
  if lang ≠ "python".data then []
  else
    match parse with
    | ParseResult.err _ => []
    | ParseResult.ok nodes =>
        let actual := dedup (actualImportsFrom nodes)
        List.flatten (incorrectPats.map fun p =>
          if !(containsSub "import".data (pyLower p.code)) then []
          else
            List.flatten ((splitOnChar '\n' p.code).map fun line0 =>
              let line := pyStrip line0
              if isCommentLine line || line.isEmpty then []
              else if !(List.isPrefixOf "from ".data line ||
                        List.isPrefixOf "import ".data line) then []
              else
                actual.filterMap fun a =>
                  if normalizeLine line = a then some (importFinding line p.sectionName)
                  else none))

/-- The pre-compiled flat regexes of `_compile_patterns` (section, regex);
patterns whose regex fails are dropped. -/
def compiledRegexes (pats : List CodePattern) : List (Str × List RegexTok) :=
  pats.filterMap fun p =>
    Option.map (fun ts => (p.sectionName, ts)) (codeToRegexCompiled p.code)

/-- The ERROR finding emitted by `_check_incorrect_patterns`. -/
def incorrectPatternFinding (sectionName : Str) : Finding :=
  { severity := Severity.error
    rule := "pattern:".data ++ sectionName
    message := "Incorrect pattern found from section: ".data ++ sectionName
    suggestion := "Review acceptance criteria for correct usage".data }

/-- Model of `_check_incorrect_patterns`: matched section names and their findings. -/
def checkIncorrectPatterns (code : Str) (regexes : List (Str × List RegexTok)) :
    List Str × List Finding :=
  let hits := regexes.filter fun sr => regexSearch sr.2 code
  (hits.map (fun sr => sr.1), hits.map (fun sr => incorrectPatternFinding sr.1))

/-- Model of `_check_correct_patterns`: matched section names (no findings). -/
def checkCorrectPatterns (code : Str) (regexes : List (Str × List RegexTok)) : List Str :=
  (regexes.filter fun sr => regexSearch sr.2 code).map (fun sr => sr.1)

/-- The candidate's non-comment, non-blank lines, whitespace-normalised. -/
def codeLinesNormalized (code : Str) : List Str :=
  (splitOnChar '\n' code).filterMap fun line =>
    if (pyStrip line).isEmpty || isCommentLine (pyStrip line) then none
    else some (normalizeLine line)

/-- The `matched_count` loop of `_multi_line_pattern_matches_exact`: lines
whose normalised form is shorter than 15 are skipped; a line counts when
some candidate line equals it exactly. -/
def exactMatchedCount (cls : List Str) : List Str → Nat
  | [] => 0
  | pl :: rest =>
      let np := normalizeLine pl
      if np.length < 15 then exactMatchedCount cls rest
      else if cls.any (fun cl => cl == np) then exactMatchedCount cls rest + 1
      else exactMatchedCount cls rest

/-- Model of `_multi_line_pattern_matches_exact` (used for incorrect patterns). -/
def multiLineExact (code : Str) (patternLines : List Str) : Bool :=
  match patternLines with
  | [] => false
  | _ :: _ =>
      let matchedCount := exactMatchedCount (codeLinesNormalized code) patternLines
      let significantLines := patternLines.filter fun l => decide (15 ≤ l.length)
      if significantLines.length ≤ 2 then
        decide (1 ≤ matchedCount) && decide (matchedCount = significantLines.length)
      else decide (2 ≤ matchedCount)

/-- The `matched_count` loop of `_multi_line_pattern_matches_flexible`:
the per-line test is two-way substring containment. -/
def flexMatchedCount (cls : List Str) : List Str → Nat
  | [] => 0
  | pl :: rest =>
      let np := normalizeLine pl
      if np.length < 15 then flexMatchedCount cls rest
      else if cls.any (fun cl => containsSub np cl || containsSub cl np) then
        flexMatchedCount cls rest + 1
      else flexMatchedCount cls rest

/-- Model of `_multi_line_pattern_matches_flexible` (used for correct patterns). -/
def multiLineFlexible (code : Str) (patternLines : List Str) : Bool :=
  match patternLines with
  | [] => false
  | _ :: _ =>
      let matchedCount := flexMatchedCount (codeLinesNormalized code) patternLines
      let significantLines := patternLines.filter fun l => decide (15 ≤ l.length)
      if significantLines.length ≤ 2 then
        decide (1 ≤ matchedCount) && decide (matchedCount = significantLines.length)
      else decide (2 ≤ matchedCount)

/-- Model of `_import_pattern_matches` (python-only): both import kinds count here. -/
def importPatternMatches (lang : Str) (parse : ParseResult)
    (importLines : List Str) : Bool :=
  if lang ≠ "python".data then false
  else
    match parse with
    | ParseResult.err _ => false
    | ParseResult.ok nodes =>
        let actual := dedup (nodes.map fun n =>
          match n with
          | PyImport.importFrom m a => "from ".data ++ m ++ " import ".data ++ a
          | PyImport.plain a => "import ".data ++ a)
        importLines.any fun il =>
          (List.isPrefixOf "from ".data il || List.isPrefixOf "import ".data il) &&
          actual.contains (normalizeLine il)

/-- Model of `_pattern_matches`: dispatch between import, exact and flexible matching. -/
def patternMatches (lang : Str) (parse : ParseResult) (code : Str)
    (pat : CodePattern) (isIncorrect : Bool) : Bool :=
  let patternCode := pyStrip pat.code
  let codeLines := (splitOnChar '\n' patternCode).filterMap fun l =>
    let s := pyStrip l
    if s.isEmpty || isCommentLine s then none else some s
  match codeLines with
  | [] => false
  | firstLine :: _ =>
      if List.isPrefixOf "from ".data firstLine ||
         List.isPrefixOf "import ".data firstLine then
        importPatternMatches lang parse codeLines
      else if isIncorrect then multiLineExact code codeLines
      else multiLineFlexible code codeLines

/-- The ERROR finding of `_check_rule` for a matched incorrect pattern. -/
def ruleErrorFinding (rule : ValidationRule) (pat : CodePattern) : Finding :=
  { severity := Severity.error
    rule := rule.name
    message := "Incorrect usage in ".data ++ rule.name
    codeSnippet := pat.code.take 100 }

/-- The WARNING finding of `_check_rule` for a missing required pattern. -/
def ruleWarningFinding (rule : ValidationRule) (reqPat : Str) : Finding :=
  { severity := Severity.warning
    rule := rule.name
    message := "Missing recommended pattern: ".data ++ reqPat }

/-- Model of `_check_rule`: flag the rule's matched incorrect patterns and its
missing required substrings. -/
def checkRule (lang : Str) (parse : ParseResult) (code : Str)
    (rule : ValidationRule) : List Finding :=
  (rule.incorrectPatterns.filterMap fun p =>
    if patternMatches lang parse code p true then some (ruleErrorFinding rule p)
    else none) ++
  (rule.requiredPatterns.filterMap fun rp =>
    if containsSub rp code then none else some (ruleWarningFinding rule rp))

/-- Model of `_calculate_score`: neutral 50 with no information, otherwise the
additive rubric clamped to `[0, 100]`. -/
def calculateScore (findings : List Finding)
    (matchedCorrect matchedIncorrect : List Str) : Int :=
  if findings.isEmpty && matchedCorrect.isEmpty then 50
  else
    let e : Int := findings.countP fun f => f.severity == Severity.error
    let w : Int := findings.countP fun f => f.severity == Severity.warning
    let s : Int := 100 - 20 * e - 5 * w + 5 * (matchedCorrect.length : Int) -
      15 * (matchedIncorrect.length : Int)
    max 0 (min 100 s)

/-- The ERROR finding of `_check_syntax`. -/
def parseErrFinding (e : PySyntaxError) : Finding :=
  { severity := Severity.error
    rule := "syntax".data
    message := "Syntax error: ".data ++ e.msg
    line := e.lineno
    column := e.offset }

/-- Steps 2-6 of `evaluate` (imports, patterns, rules, score). -/
def evaluateChecks (criteria : AcceptanceCriteria) (lang : Str)
    (parse : ParseResult) (code scen : Str) : EvaluationResult :=
  let importFindings := checkImports lang parse criteria.incorrectPatterns
  let incp := checkIncorrectPatterns code (compiledRegexes criteria.incorrectPatterns)
  let mc := checkCorrectPatterns code (compiledRegexes criteria.correctPatterns)
  let ruleFindings := List.flatten (criteria.rules.map (checkRule lang parse code))
  let findings := importFindings ++ incp.2 ++ ruleFindings
  { skillName := criteria.skillName
    scenarioLabel := scen
    generatedCode := code
    findings := findings
    matchedCorrect := mc
    matchedIncorrect := incp.1
    score := calculateScore findings mc incp.1 }

/-- Model of `CodeEvaluator.evaluate`: the parse short-circuit for python criteria,
then the full check pipeline. -/
def evaluate (criteria : AcceptanceCriteria) (parse : ParseResult)
    (code scen : Str) : EvaluationResult :=
  let lang := languageOf criteria.skillName
  if lang = "python".data then
    match parse with
    | ParseResult.err e =>
        { skillName := criteria.skillName
          scenarioLabel := scen
          generatedCode := code
          findings := [parseErrFinding e]
          matchedCorrect := []
          matchedIncorrect := []
          score := 0 }
    | ParseResult.ok _ => evaluateChecks criteria lang parse code scen
  else evaluateChecks criteria lang parse code scen

/-! ### Specification-side definitions

For claims comparing the implementation with the specification's wording,
the following definitions follow the spec's words (not the source), and are
set against the source-derived definitions above. -/

/-- Follows the spec's words for the exact multi-line matcher: a line is
significant when its normalised form has length at least 15, and with at
most 2 significant lines the match succeeds exactly when every significant
line has an exactly-equal normalised counterpart (vacuously so for zero
significant lines); with more than 2 it succeeds once 2 matched. -/
def multiLineExactSpec (code : Str) (patternLines : List Str) : Bool :=
  let cls := codeLinesNormalized code
  let sig := patternLines.filter fun l => decide (15 ≤ (normalizeLine l).length)
  let matched := (sig.filter fun pl => cls.any (fun cl => cl == normalizeLine pl)).length
  if sig.length ≤ 2 then decide (matched = sig.length)
  else decide (2 ≤ matched)

/-- Follows the spec's words for the import check: the candidate's import
set contains both `"from X import Y"` strings for from-imports and
`"import Y"` strings for plain imports. -/
def actualImportsSpec (nodes : List PyImport) : List Str :=
  nodes.map fun n =>
    match n with
    | PyImport.importFrom m a => "from ".data ++ m ++ " import ".data ++ a
    | PyImport.plain a => "import ".data ++ a

/-- Follows the spec's words for `_check_imports`, differing from the
source only in the import set used. -/
def checkImportsSpec (lang : Str) (parse : ParseResult)
    (incorrectPats : List CodePattern) : List Finding :=
  if lang ≠ "python".data then []
  else
    match parse with
    | ParseResult.err _ => []
    | ParseResult.ok nodes =>
        let actual := dedup (actualImportsSpec nodes)
        List.flatten (incorrectPats.map fun p =>
          if !(containsSub "import".data (pyLower p.code)) then []
          else
            List.flatten ((splitOnChar '\n' p.code).map fun line0 =>
              let line := pyStrip line0
              if isCommentLine line || line.isEmpty then []
              else if !(List.isPrefixOf "from ".data line ||
                        List.isPrefixOf "import ".data line) then []
              else
                actual.filterMap fun a =>
                  if normalizeLine line = a then some (importFinding line p.sectionName)
                  else none))

/-- Follows the spec's words for the block-classification window test: any
incorrect marker of the full section-level list makes the block incorrect,
otherwise any correct marker of the full list makes it correct, otherwise
the section default applies, defaulting to correct. -/
def determineCorrectnessSpec (code context : Str) (sectionDefault : Option Bool) : Bool :=
  match pyFindNat context (anchorOf code) with
  | none => sectionDefault.getD true
  | some pos =>
      let w := windowOf context pos
      if incorrectMarkers.any (fun m => containsSub m w) then false
      else if correctMarkers.any (fun m => containsSub m w) then true
      else sectionDefault.getD true

/-! ### Concrete inputs used by the claims -/

/-- The C1 scenario document: one `## Authentication` section with one
`✅`-marked correct block and one `❌`-marked incorrect block. -/
def c1doc : Str :=
  "## Authentication\n\n✅\n\n```python\nclient = Client(credential=DefaultCredential())\n```\n\n❌\n\n```python\nclient = Client(key=\"hardcoded\")\n```\n".data

/-- Candidate code that reproduces both example lines verbatim. -/
def c1code : Str :=
  "client = Client(credential=DefaultCredential())\nclient = Client(key=\"hardcoded\")\n".data

def c1criteria : AcceptanceCriteria := parseCriteria "demo-auth-py".data c1doc

/-- The C1 evaluation (the candidate parses and contains no imports, so the
AST walk yields no import nodes). -/
def c1result : EvaluationResult := evaluate c1criteria (ParseResult.ok []) c1code []

/-- The C1 document's single section chunk (after the `## ` delimiter). -/
def c1sec : Str :=
  "Authentication\n\n✅\n\n```python\nclient = Client(credential=DefaultCredential())\n```\n\n❌\n\n```python\nclient = Client(key=\"hardcoded\")\n```\n".data

/-- The C1 section body (after the title line). -/
def c1body : Str :=
  "\n✅\n\n```python\nclient = Client(credential=DefaultCredential())\n```\n\n❌\n\n```python\nclient = Client(key=\"hardcoded\")\n```\n".data

/-- The raw text of the first C1 code block. -/
def c1block1 : Str := "client = Client(credential=DefaultCredential())\n".data

/-- The raw text of the second C1 code block. -/
def c1block2 : Str := "client = Client(key=\"hardcoded\")\n".data

/-- The C1 section title. -/
def c1title : Str := "Authentication".data

def c1pat1code : Str := "client = Client(credential=DefaultCredential())".data

def c1pat2code : Str := "client = Client(key=\"hardcoded\")".data

/-- The correct C1 pattern as loaded. -/
def c1P1 : CodePattern :=
  { code := c1pat1code
    language := "python".data
    description := []
    isCorrect := true
    sectionName := "Authentication".data }

/-- The incorrect C1 pattern as loaded. -/
def c1P2 : CodePattern :=
  { code := c1pat2code
    language := "python".data
    description := []
    isCorrect := false
    sectionName := "Authentication".data }

/-- The single rule extracted from the C1 document. -/
def c1rule : ValidationRule :=
  { name := "Authentication".data
    description := "✅".data
    correctPatterns := [c1P1]
    incorrectPatterns := [c1P2]
    requiredImports := []
    forbiddenImports := []
    requiredPatterns := []
    forbiddenPatterns := [] }

/-- The parsed C1 criteria, as an explicit value. -/
def c1criteriaVal : AcceptanceCriteria :=
  { skillName := "demo-auth-py".data
    rules := [c1rule]
    correctPatterns := [c1P1]
    incorrectPatterns := [c1P2] }

/-- The finding of the flat incorrect-pattern scan in the C1 scenario. -/
def c1find1 : Finding := incorrectPatternFinding "Authentication".data

/-- The finding of the rule-scoped scan in the C1 scenario. -/
def c1find2 : Finding := ruleErrorFinding c1rule c1P2

/-- The C1 evaluation result, as an explicit value. -/
def c1resultVal : EvaluationResult :=
  { skillName := "demo-auth-py".data
    scenarioLabel := []
    generatedCode := c1code
    findings := [c1find1, c1find2]
    matchedCorrect := ["Authentication".data]
    matchedIncorrect := ["Authentication".data]
    score := 50 }

/-- The C3 incorrect-pattern lines (both significant). -/
def c3lines : List Str :=
  ["endpoint = get_endpoint()".data, "client = Client(endpoint=endpoint)".data]

/-- The C3 candidate: only a superficially similar, textually different line. -/
def c3code : Str := "client = Client(url=endpoint)".data

/-- A candidate reproducing both C3 lines with trailing comments (accepted
by the flexible matcher, rejected by the exact one). -/
def c3codeComments : Str :=
  "endpoint = get_endpoint()  # fetch it\nclient = Client(endpoint=endpoint)  # with endpoint".data

/-- The C4 incorrect pattern: a plain `import` statement. -/
def c4pattern : CodePattern :=
  { code := "import os".data
    language := "python".data
    description := []
    isCorrect := false
    sectionName := "Imports".data }

/-- The C5 documentation example containing a double-quoted string. -/
def c5pattern : Str := "client = Client(key=\"hardcoded\")".data

/-- The same line with single quotes. -/
def c5variantQuotes : Str :=
  "client = Client(key=".data ++ apos :: "hardcoded".data ++ apos :: ")".data

/-- A two-line C5 documentation example. -/
def c5multiPattern : Str := "alpha = fn(1)\nbeta = gn(2)".data

/-- The same two lines separated by a blank line. -/
def c5multiVariant : Str := "alpha = fn(1)\n\nbeta = gn(2)".data

/-- The C6 document: a `Bad`-marked block with a tie-making `✅` after it. -/
def c6doc : Str := "## Setup\n\nBad\n\n```python\nx = aaaa\n```\n\n✅\n".data

/-- The body of the C6 document's section. -/
def c6body : Str := "\nBad\n\n```python\nx = aaaa\n```\n\n✅\n".data

/-- The raw text of the C6 code block. -/
def c6code : Str := "x = aaaa\n".data

/-- A C9 section body whose only markers are one `Incorrect` (which also
counts as one `Correct`), with the code block at the very start. -/
def c9body : Str := "x = aaaa\nIncorrect stuff below\n".data

def c9code : Str := "x = aaaa".data

/-- A small python criteria for the C8 witness. -/
def c8criteria : AcceptanceCriteria :=
  { skillName := "demo-skill-py".data
    rules := []
    correctPatterns := []
    incorrectPatterns := [] }

/-- A concrete parse failure for the C8 witness. -/
def c8err : PySyntaxError :=
  { msg := "invalid syntax".data, lineno := some 1, offset := some 8 }

/-! ### Claim theorems

The concrete pipeline computations are established stepwise: each stage is
evaluated by `decide` on fully explicit inputs, and the stages are then
assembled by rewriting. -/

set_option maxRecDepth 2000000

theorem c1_split : splitSections c1doc = [[], c1sec] := by decide

theorem c1_firstLine : splitFirstLine c1sec = (c1title, c1body) := by decide

theorem c1_default : isCorrectSection c1body = none := by decide

theorem c1_blocks :
    extractCodeBlocks c1body = [("python".data, c1block1), ("python".data, c1block2)] := by
  decide

theorem c1_class1 : determineCorrectness c1block1 c1body none = true := by decide

theorem c1_class2 : determineCorrectness c1block2 c1body none = false := by decide

theorem c1_strip1 : pyStrip c1block1 = c1pat1code := by decide

theorem c1_strip2 : pyStrip c1block2 = c1pat2code := by decide

theorem c1_stripTitle : pyStrip c1title = c1title := by decide

theorem c1_stripSec : (pyStrip c1sec).isEmpty = false := by decide

theorem pyStripNil : pyStrip [] = ([] : Str) := rfl

theorem c1_patterns : extractCodePatterns c1doc = [c1P1, c1P2] := by
  simp only [extractCodePatterns, c1_split, List.map_cons, List.map_nil, pyStripNil,
    List.isEmpty_nil, if_true, c1_firstLine, c1_default, c1_blocks, c1_class1, c1_class2,
    c1_strip1, c1_strip2, c1_stripTitle, c1_stripSec, Bool.false_eq_true, if_false,
    List.flatten_cons, List.flatten_nil, List.nil_append, List.append_nil]
  decide

theorem c1_skipCheck :
    (["overview".data, "introduction".data, "quick reference".data].any
      fun sk => containsSub sk (pyLower c1title)) = false := by decide

theorem c1_glue : (['#', '#', ' '] : Str) ++ c1sec = c1doc := by decide

theorem c1_desc : extractDescription c1body = "✅".data := by decide

theorem c1_reqImports : extractRequiredImports c1body = [] := by decide

theorem c1_rules : extractRules c1doc = [c1rule] := by
  simp only [extractRules, c1_split, List.filterMap_cons, List.filterMap_nil, pyStripNil,
    List.isEmpty_nil, if_true, c1_firstLine, c1_stripTitle, c1_stripSec, c1_skipCheck,
    Bool.false_eq_true, if_false, c1_glue, c1_patterns, c1_desc, c1_reqImports]
  decide

theorem c1_criteria_val : c1criteria = c1criteriaVal := by
  show parseCriteria "demo-auth-py".data c1doc = c1criteriaVal
  unfold parseCriteria
  rw [c1_patterns, c1_rules]
  decide

theorem c1_eval_val :
    evaluate c1criteriaVal (ParseResult.ok []) c1code [] = c1resultVal := by decide

theorem c1_result_val : c1result = c1resultVal := by
  show evaluate c1criteria (ParseResult.ok []) c1code [] = c1resultVal
  rw [c1_criteria_val]
  exact c1_eval_val

/-- C1 (counterexample): on the claimed scenario — the C1 document with its
`✅`/`❌` blocks and a candidate reproducing both lines verbatim — the
evaluation produces two ERROR findings (the flat incorrect-pattern match
and the rule-scoped exact rematch of the same block), not exactly one, and
the score is 50, not 70. -/
theorem c1_counterexample :
    c1result.errorCount = 2 ∧ c1result.score = 50 ∧
    ¬(c1result.errorCount = 1 ∧ c1result.score = 70) := by
  rw [c1_result_val]
  refine ⟨by decide, by decide, ?_⟩
  intro h
  exact absurd h.1 (by decide)

/-- C1 (amended): the scenario yields two ERROR findings — rule
`"pattern:Authentication"` from the flat scan and rule `"Authentication"`
from the rule-scoped scan — `matched_correct = matched_incorrect =
["Authentication"]`, and `score = 100 - 2*20 - 15 + 5 = 50`. -/
theorem c1_two_errors_score_fifty :
    c1result.findings.map (fun f => f.rule) =
      ["pattern:Authentication".data, "Authentication".data] ∧
    c1result.findings.map (fun f => f.severity) = [Severity.error, Severity.error] ∧
    c1result.matchedCorrect = ["Authentication".data] ∧
    c1result.matchedIncorrect = ["Authentication".data] ∧
    c1result.score = 50 ∧
    c1result.passed = false := by
  rw [c1_result_val]
  refine ⟨by decide, by decide, by decide, by decide, by decide, by decide⟩

/-- C2 (counterexample): on a pattern whose only line is shorter than 15
characters the claimed matcher succeeds vacuously (no significant lines),
but the implementation returns `False` (it requires `matched_count >= 1`,
and its significance threshold uses the raw line length). -/
theorem c2_counterexample :
    multiLineExactSpec [] ["x = 1".data] = true ∧
    multiLineExact [] ["x = 1".data] = false := by
  refine ⟨by decide, by decide⟩

/-- C3 (counterexample): on the claimed inputs the flexible matcher also
rejects — `client = Client(url=endpoint)` is not in a two-way substring
relation with either pattern line, and with 2 significant lines both are
required — contradicting the claim that the flexible matcher accepts. -/
theorem c3_counterexample : multiLineFlexible c3code c3lines = false := by
  decide

/-- C3 (amended): on the claimed inputs both matchers reject; the
exact-vs-flexible asymmetry instead shows when the candidate reproduces
both lines with trailing comments, which the flexible matcher's two-way
substring test accepts while the exact matcher still rejects. -/
theorem c3_exact_flexible_asymmetry :
    multiLineExact c3code c3lines = false ∧
    multiLineFlexible c3codeComments c3lines = true ∧
    multiLineExact c3codeComments c3lines = false := by
  refine ⟨by decide, by decide, by decide⟩

/-- C4 (counterexample): a candidate whose only import is the plain
`import os` and an incorrect pattern `import os`: the implementation emits
no finding (its import set keeps only from-imports), while the claimed
check (whose set also holds `"import Y"` strings) emits exactly one. -/
theorem c4_counterexample :
    checkImports "python".data (ParseResult.ok [PyImport.plain "os".data])
      [c4pattern] = [] ∧
    (checkImportsSpec "python".data (ParseResult.ok [PyImport.plain "os".data])
      [c4pattern]).length = 1 := by
  refine ⟨by decide, by decide⟩

/-- C5: the quote- and newline-loosening steps of `_code_to_regex` are
inert on Python 3.7+ — the compiled pattern for a double-quoted example
contains no quote class and rejects the single-quoted reproduction, and a
two-line example's compiled pattern contains no `\s*` token and rejects a
reproduction with an extra blank line — though each pattern still matches
its own verbatim text. -/
theorem c5_loosening_is_inert :
    (codeToRegexCompiled c5pattern).map (fun ts => regexSearch ts c5pattern) =
      some true ∧
    (codeToRegexCompiled c5pattern).map (fun ts => regexSearch ts c5variantQuotes) =
      some false ∧
    (codeToRegexCompiled c5pattern).map (fun ts => ts.contains RegexTok.quoteCls) =
      some false ∧
    (codeToRegexCompiled c5multiPattern).map (fun ts => regexSearch ts c5multiPattern) =
      some true ∧
    (codeToRegexCompiled c5multiPattern).map (fun ts => regexSearch ts c5multiVariant) =
      some false ∧
    (codeToRegexCompiled c5multiPattern).map (fun ts => ts.contains RegexTok.ws0) =
      some false := by
  refine ⟨by decide, by decide, by decide, by decide, by decide, by decide⟩

/-- C6 (counterexample): in the C6 document the block's 200-character
window contains the incorrect marker `Bad` and the section counts tie, so
the claimed heuristic classifies the block incorrect, but the
implementation's window test ignores `Bad` and classifies it correct. -/
theorem c6_counterexample :
    (extractCodePatterns c6doc).map (fun p => p.isCorrect) = [true] ∧
    determineCorrectnessSpec c6code c6body (isCorrectSection c6body) = false := by
  refine ⟨by decide, by decide⟩

/-- The loop of `_multi_line_pattern_matches_exact` counts exactly the
pattern lines whose normalised form is long enough and equals some
candidate line. -/
theorem exactMatchedCount_eq (cls ls : List Str) :
    exactMatchedCount cls ls =
      (ls.filter fun pl =>
        decide (15 ≤ (normalizeLine pl).length) &&
        cls.any (fun cl => cl == normalizeLine pl)).length := by
  induction ls with
  | nil => rfl
  | cons pl rest ih =>
      simp only [exactMatchedCount, List.filter_cons]
      by_cases h : (normalizeLine pl).length < 15
      · have hd : decide (15 ≤ (normalizeLine pl).length) = false := by
          simp only [decide_eq_false_iff_not]; omega
        simp [h, hd, ih]
      · have hd : decide (15 ≤ (normalizeLine pl).length) = true := by
          simp only [decide_eq_true_eq]; omega
        by_cases ha : (cls.any fun cl => cl == normalizeLine pl) = true
        · simp [h, hd, ha, ih]
        · simp [h, hd, ha, ih]

/-- C2 (amended): the exact matcher succeeds iff — writing `m` for the
number of pattern lines whose normalised form has length ≥ 15 and equals
some normalised candidate line, and `s` for the number of pattern lines of
raw length ≥ 15 — either `s ≤ 2`, at least one line matched and `m = s`,
or `s > 2` and `m ≥ 2`; in particular a pattern with no significant line
never matches. -/
theorem c2_exact_matcher_characterization (code : Str) (patternLines : List Str) :
    multiLineExact code patternLines = true ↔
      (let m := (patternLines.filter fun pl =>
          decide (15 ≤ (normalizeLine pl).length) &&
          (codeLinesNormalized code).any (fun cl => cl == normalizeLine pl)).length
       let s := (patternLines.filter fun l => decide (15 ≤ l.length)).length
       if s ≤ 2 then 1 ≤ m ∧ m = s else 2 ≤ m) := by
  cases patternLines with
  | nil => simp [multiLineExact]
  | cons pl rest =>
      simp only [multiLineExact, exactMatchedCount_eq]
      split
      · simp [Bool.and_eq_true, decide_eq_true_eq]
      · simp [decide_eq_true_eq]

/-- Every element of a map whose function is constantly `[]` flattens away. -/
theorem flattenMapNil {α β : Type} (L : List α) (g : α → List β)
    (hg : ∀ x, g x = []) : (L.map g).flatten = [] := by
  induction L with
  | nil => rfl
  | cons a t ih => simp [hg, ih]

/-- C4 (amended): the import check's AST walk keeps only
`from X import Y` entries, so when every import node of the candidate is a
plain `import Y` the check emits no finding, whatever the incorrect
patterns say. -/
theorem c4_plain_imports_ignored (nodes : List PyImport) (pats : List CodePattern)
    (h : ∀ n ∈ nodes, PyImport.isPlain n = true) :
    checkImports "python".data (ParseResult.ok nodes) pats = [] := by
  have hA : actualImportsFrom nodes = [] := by
    unfold actualImportsFrom
    rw [List.filterMap_eq_nil_iff]
    intro n hn
    have := h n hn
    cases n with
    | importFrom m a => simp [PyImport.isPlain] at this
    | plain a => rfl
  simp only [checkImports, hA, ne_eq, not_true_eq_false, if_false, ite_false]
  refine flattenMapNil pats _ (fun p => ?_)
  split
  · rfl
  · refine flattenMapNil _ _ (fun line0 => ?_)
    split
    · rfl
    · split
      · rfl
      · rfl

theorem c4_plain_imports_ignored_witness :
    (∀ n ∈ [PyImport.plain "os".data], PyImport.isPlain n = true) ∧
    checkImports "python".data (ParseResult.ok [PyImport.plain "os".data])
      [c4pattern] = [] :=
  ⟨by decide, c4_plain_imports_ignored _ _ (by decide)⟩

/-- C6 (amended): when the block's anchor is found at `pos`, classification
is: incorrect if the 200-character window holds `❌`, `Incorrect` or
`DON'T`; else correct if it holds `✅` or `Correct`; else the section
majority (`Bad`, `Anti-pattern`, `DO:` and `Good` count only there), and
correct on a tie. -/
theorem c6_window_then_majority (code context : Str) (pos : Nat)
    (h : pyFindNat context (anchorOf code) = some pos) :
    determineCorrectness code context (isCorrectSection context) =
      (if hasIncorrectWindowMarker (windowOf context pos) then false
       else if hasCorrectWindowMarker (windowOf context pos) then true
       else if incorrectCount context < correctCount context then true
       else if correctCount context < incorrectCount context then false
       else true) := by
  unfold determineCorrectness
  rw [h]
  by_cases h1 : hasIncorrectWindowMarker (windowOf context pos) = true
  · simp [h1]
  · by_cases h2 : hasCorrectWindowMarker (windowOf context pos) = true
    · simp [h1, h2]
    · unfold isCorrectSection
      by_cases h3 : incorrectCount context < correctCount context
      · simp [h1, h2, h3]
      · by_cases h4 : correctCount context < incorrectCount context
        · simp [h1, h2, h3, h4]
        · simp [h1, h2, h3, h4]

theorem c6_window_then_majority_witness :
    pyFindNat c6body (anchorOf c6code) = some 16 ∧
    determineCorrectness c6code c6body (isCorrectSection c6body) =
      (if hasIncorrectWindowMarker (windowOf c6body 16) then false
       else if hasCorrectWindowMarker (windowOf c6body 16) then true
       else if incorrectCount c6body < correctCount c6body then true
       else if correctCount c6body < incorrectCount c6body then false
       else true) :=
  ⟨by decide, c6_window_then_majority c6code c6body 16 (by decide)⟩

/-- Property `passed` holds exactly when no ERROR finding was recorded. -/
theorem passed_iff_no_errors (r : EvaluationResult) :
    r.passed = true ↔ r.errorCount = 0 := by
  simp [EvaluationResult.passed, EvaluationResult.errorCount, List.countP_eq_zero,
    List.any_eq_true]

/-- Formula `_calculate_score` always lands in `[0, 100]`. -/
theorem calculateScore_bounds (fs : List Finding) (mc mi : List Str) :
    0 ≤ calculateScore fs mc mi ∧ calculateScore fs mc mi ≤ 100 := by
  unfold calculateScore
  split
  · exact ⟨by norm_num, by norm_num⟩
  · constructor
    · exact le_max_left 0 _
    · exact max_le (by norm_num) (min_le_left _ _)

/-- Every evaluation score is the syntax-failure 0 or a clamped rubric value. -/
theorem evaluate_score_shape (criteria : AcceptanceCriteria) (parse : ParseResult)
    (code scen : Str) :
    (evaluate criteria parse code scen).score = 0 ∨
    ∃ fs mc mi, (evaluate criteria parse code scen).score = calculateScore fs mc mi := by
  simp only [evaluate]
  split
  · cases parse with
    | ok ns => exact Or.inr ⟨_, _, _, rfl⟩
    | err e => exact Or.inl rfl
  · exact Or.inr ⟨_, _, _, rfl⟩

/-- C7: every evaluation result has a score within `[0, 100]`, and passes
exactly when it has no ERROR finding. -/
theorem c7_score_bounds_and_passed (criteria : AcceptanceCriteria)
    (parse : ParseResult) (code scen : Str) :
    0 ≤ (evaluate criteria parse code scen).score ∧
    (evaluate criteria parse code scen).score ≤ 100 ∧
    ((evaluate criteria parse code scen).passed = true ↔
      (evaluate criteria parse code scen).errorCount = 0) := by
  refine ⟨?_, ?_, passed_iff_no_errors _⟩
  · rcases evaluate_score_shape criteria parse code scen with h | ⟨fs, mc, mi, h⟩
    · rw [h]
    · rw [h]; exact (calculateScore_bounds fs mc mi).1
  · rcases evaluate_score_shape criteria parse code scen with h | ⟨fs, mc, mi, h⟩
    · rw [h]; norm_num
    · rw [h]; exact (calculateScore_bounds fs mc mi).2

/-- C8: for python criteria, a parse failure short-circuits the pipeline
with the single syntax ERROR finding and a zero score. -/
theorem c8_parse_failure_short_circuit (criteria : AcceptanceCriteria)
    (e : PySyntaxError) (code scen : Str)
    (h : languageOf criteria.skillName = "python".data) :
    (evaluate criteria (ParseResult.err e) code scen).findings =
      [parseErrFinding e] ∧
    (evaluate criteria (ParseResult.err e) code scen).score = 0 := by
  constructor <;> simp [evaluate, h]

theorem c8_parse_failure_short_circuit_witness :
    languageOf c8criteria.skillName = "python".data ∧
    ((evaluate c8criteria (ParseResult.err c8err) "def f(:".data []).findings =
        [parseErrFinding c8err] ∧
      (evaluate c8criteria (ParseResult.err c8err) "def f(:".data []).score = 0) :=
  ⟨by decide, c8_parse_failure_short_circuit c8criteria c8err "def f(:".data [] (by decide)⟩

/-- C9 (counterexample): `Correct` is not a substring of `Incorrect` (the
cases differ), so a body whose only marker occurrence is `Incorrect` has
correct-count 0 and incorrect-count 1: the section default is "incorrect",
not a tie, and the marker-free-window block classifies incorrect. -/
theorem c9_counterexample :
    containsSub "Correct".data "Incorrect".data = false ∧
    pyCount "Incorrect".data "Correct".data = 0 ∧
    isCorrectSection c9body = some false ∧
    determineCorrectness c9code c9body (isCorrectSection c9body) = false := by
  refine ⟨by decide, by decide, by decide, by decide⟩

/-- C9 (amended): occurrences of `Incorrect` increment only the
incorrect-marker count (`Correct`, capitalised, is not a substring of
`Incorrect`); for a body with at least one `Incorrect` and no other marker
occurrence the section default is "incorrect", and every block whose
200-character window is marker-free classifies incorrect. -/
theorem c9_incorrect_marker_counts_once (body code : Str) (pos : Nat)
    (h1 : 1 ≤ pyCount body "Incorrect".data)
    (h2 : pyCount body "Correct".data = 0)
    (h3 : pyCount body "✅".data = 0)
    (h4 : pyCount body "❌".data = 0)
    (h5 : pyCount body "DO:".data = 0)
    (h6 : pyCount body "Good".data = 0)
    (h7 : pyCount body donTColon = 0)
    (h8 : pyCount body "Bad".data = 0)
    (h9 : pyCount body "Anti-pattern".data = 0)
    (h10 : pyFindNat body (anchorOf code) = some pos)
    (h11 : hasIncorrectWindowMarker (windowOf body pos) = false)
    (h12 : hasCorrectWindowMarker (windowOf body pos) = false) :
    containsSub "Correct".data "Incorrect".data = false ∧
    isCorrectSection body = some false ∧
    determineCorrectness code body (isCorrectSection body) = false := by
  have hc : correctCount body = 0 := by
    unfold correctCount
    rw [h2, h3, h5, h6]
  have hi : 1 ≤ incorrectCount body := by
    unfold incorrectCount
    rw [h4, h7, h8, h9]
    omega
  have hs : isCorrectSection body = some false := by
    unfold isCorrectSection
    rw [if_neg (by omega), if_pos (by omega)]
  refine ⟨by decide, hs, ?_⟩
  rw [hs]
  simp [determineCorrectness, h10, h11, h12]

theorem c9_incorrect_marker_counts_once_witness :
    (1 ≤ pyCount c9body "Incorrect".data ∧
     pyCount c9body "Correct".data = 0 ∧
     pyCount c9body "✅".data = 0 ∧
     pyCount c9body "❌".data = 0 ∧
     pyCount c9body "DO:".data = 0 ∧
     pyCount c9body "Good".data = 0 ∧
     pyCount c9body donTColon = 0 ∧
     pyCount c9body "Bad".data = 0 ∧
     pyCount c9body "Anti-pattern".data = 0 ∧
     pyFindNat c9body (anchorOf c9code) = some 0 ∧
     hasIncorrectWindowMarker (windowOf c9body 0) = false ∧
     hasCorrectWindowMarker (windowOf c9body 0) = false) ∧
    (containsSub "Correct".data "Incorrect".data = false ∧
     isCorrectSection c9body = some false ∧
     determineCorrectness c9code c9body (isCorrectSection c9body) = false) :=
  ⟨by decide,
   c9_incorrect_marker_counts_once c9body c9code 0 (by decide) (by decide) (by decide)
     (by decide) (by decide) (by decide) (by decide) (by decide) (by decide)
     (by decide) (by decide) (by decide)⟩

/-- Every import-check finding carries ERROR severity. -/
theorem checkImports_severity (lang : Str) (parse : ParseResult)
    (pats : List CodePattern) :
    ∀ f ∈ checkImports lang parse pats, f.severity = Severity.error := by
  intro f hf
  unfold checkImports at hf
  split at hf
  · simp at hf
  · cases parse with
    | err e => simp at hf
    | ok nodes =>
        simp only [List.mem_flatten, List.mem_map] at hf
        obtain ⟨L, ⟨p, hp, rfl⟩, hfL⟩ := hf
        split at hfL
        · simp at hfL
        · simp only [List.mem_flatten, List.mem_map] at hfL
          obtain ⟨L2, ⟨line0, hline, rfl⟩, hfL2⟩ := hfL
          split at hfL2
          · simp at hfL2
          · split at hfL2
            · simp at hfL2
            · simp only [List.mem_filterMap] at hfL2
              obtain ⟨a, ha, hfa⟩ := hfL2
              split at hfa
              · obtain rfl := Option.some.inj hfa
                rfl
              · simp at hfa

/-- Every flat incorrect-pattern finding carries ERROR severity. -/
theorem checkIncorrectPatterns_severity (code : Str)
    (regexes : List (Str × List RegexTok)) :
    ∀ f ∈ (checkIncorrectPatterns code regexes).2, f.severity = Severity.error := by
  intro f hf
  simp only [checkIncorrectPatterns, List.mem_map] at hf
  obtain ⟨sr, _, rfl⟩ := hf
  rfl

/-- Every rule-scoped finding is an ERROR or a WARNING. -/
theorem checkRule_severity (lang : Str) (parse : ParseResult) (code : Str)
    (rule : ValidationRule) :
    ∀ f ∈ checkRule lang parse code rule,
      f.severity = Severity.error ∨ f.severity = Severity.warning := by
  intro f hf
  unfold checkRule at hf
  rw [List.mem_append] at hf
  rcases hf with h | h
  · simp only [List.mem_filterMap] at h
    obtain ⟨x, hx, hfx⟩ := h
    split at hfx
    · obtain rfl := Option.some.inj hfx
      exact Or.inl rfl
    · simp at hfx
  · simp only [List.mem_filterMap] at h
    obtain ⟨x, hx, hfx⟩ := h
    split at hfx
    · simp at hfx
    · obtain rfl := Option.some.inj hfx
      exact Or.inr rfl

/-- Every finding of the post-syntax pipeline is an ERROR or a WARNING. -/
theorem evaluateChecks_severity (criteria : AcceptanceCriteria) (lang : Str)
    (parse : ParseResult) (code scen : Str) :
    ∀ f ∈ (evaluateChecks criteria lang parse code scen).findings,
      f.severity = Severity.error ∨ f.severity = Severity.warning := by
  intro f hf
  simp only [evaluateChecks, List.mem_append] at hf
  rcases hf with (h | h) | h
  · exact Or.inl (checkImports_severity _ _ _ f h)
  · exact Or.inl (checkIncorrectPatterns_severity _ _ f h)
  · simp only [List.mem_flatten, List.mem_map] at h
    obtain ⟨L, ⟨r, hr, rfl⟩, hfL⟩ := h
    exact checkRule_severity _ _ _ _ f hfL

/-- C10: every finding an evaluation returns has ERROR or WARNING severity;
the declared INFO level is never produced. -/
theorem c10_no_info_findings (criteria : AcceptanceCriteria) (parse : ParseResult)
    (code scen : Str) :
    ((evaluate criteria parse code scen).findings.all fun f =>
      f.severity == Severity.error || f.severity == Severity.warning) = true := by
  rw [List.all_eq_true]
  intro f hf
  have hsev : f.severity = Severity.error ∨ f.severity = Severity.warning := by
    revert hf
    simp only [evaluate]
    split
    · cases parse with
      | err e =>
          intro hf
          simp only [List.mem_singleton] at hf
          subst hf
          exact Or.inl rfl
      | ok ns => exact fun hf => evaluateChecks_severity _ _ _ _ _ f hf
    · exact fun hf => evaluateChecks_severity _ _ _ _ _ f hf
  rcases hsev with h | h <;> rw [h] <;> rfl

end Harness
